import Mathlib

/-!
Shallow embedding of `src/rtbkit/core/banker/local_banker.cc` (class
`RTBKIT::LocalBanker`).

Account keys are modelled as the strings the code builds by concatenation
(`AccountKey::toString`).  Monetary amounts are `Int` micro-units
(`MicroUSD(...).value` is an `int64_t`).  HTTP traffic is modelled by the
structured requests the code issues and by response parameters
(status code and an `Option`-typed parsed body: `none` models a body on
which `Json::parse` throws).  Telemetry (`recordHit`) is modelled as a list
of event-name strings; `recordLevel` latency/level telemetry is omitted.

The account container `GoAccounts` (file `go_account.cc`) is not part of
the sources; its operations used here (`exists`, `accumulateBalance`,
`addFromJsonString`) are modelled from the spec, as marked on each one.
-/

namespace LocalBanker

/-- `GoAccountType` from the source: role of the banker instance. -/
inductive GoAccountType where
  | ROUTER
  | POST_AUCTION
deriving DecidableEq, Repr

/-- One account record of the local store: balance and rate in micro-units.
(Accumulated spend is not read by any code path embedded here.) -/
structure Account where
  balance : Int
  rate : Int
deriving DecidableEq, Repr

/-- The mutable account mapping, as an association list keyed by the full
account-name string. -/
abbrev AccountStore := List (String × Account)

/-- Wire record `{name, balance, rate}` used by registration and
reauthorize responses. -/
structure AccountRecord where
  name : String
  balance : Int
  rate : Int
deriving DecidableEq, Repr

/-- The HTTP requests `LocalBanker` issues, with the exact paths and payload
fields built by the code. -/
inductive Request where
  /-- `POST /accounts` with `{accountName, accountType}` (addAccountImpl). -/
  | registerAccount (accountName : String) (accountType : String)
  /-- `GET path` for one account's canonical state (replaceAccount). -/
  | fetchAccount (path : String)
  /-- `POST /spendupdate` with the serialized store (spendUpdate). -/
  | spendUpdatePost (payload : AccountStore)
  /-- `POST /reauthorize/1` with the list of account names (reauthorize). -/
  | reauthorizePost (names : List String)
  /-- `POST path` with `{field: value}` (setRate). -/
  | ratePost (path : String) (field : String) (value : Int)
deriving DecidableEq, Repr

/-- Modelled from the spec: `exists(key)` of the AccountStore —
membership of the key in the mapping. -/
def existsAccount (store : AccountStore) (key : String) : Bool :=
  store.any (fun p => p.1 == key)

/-- Modelled from the spec: `accumulateBalance(key, newBalance)` of the
AccountStore (`go_account.cc`, absent from the sources) — sets the balance
to `newBalance` (full replacement) and returns the delta
`newBalance - previousBalance`; if the key does not exist, creates it with
that balance. -/
def accumulateBalance (store : AccountStore) (key : String) (newBalance : Int) :
    AccountStore × Int :=
  match store.find? (fun p => p.1 == key) with
  | some p =>
      (store.map (fun q => if q.1 == key then (q.1, { q.2 with balance := newBalance }) else q),
       newBalance - p.2.balance)
  | none => (store ++ [(key, { balance := newBalance, rate := 0 })], newBalance)

/-- Modelled from the spec: `addFromJsonString(body)` of the AccountStore —
deserialize one `{name, balance, rate}` record and insert-if-absent;
returns `false` when the payload is malformed (modelled by `none`). -/
def addFromJsonString (store : AccountStore) (body : Option AccountRecord) :
    AccountStore × Bool :=
  match body with
  | none => (store, false)
  | some r =>
      if existsAccount store r.name then (store, true)
      else (store ++ [(r.name, { balance := r.balance, rate := r.rate })], true)

/-- Set insertion for the pending-registration set
(`unordered_set::insert`: no effect when already present). -/
def insertSet (s : List String) (k : String) : List String :=
  if s.contains k then s else s ++ [k]

/-- Set erasure for the pending-registration set (`unordered_set::erase`). -/
def eraseSet (s : List String) (k : String) : List String :=
  s.filter (fun x => !(x == k))

/-- The `LocalBanker` fields read or written by the embedded operations. -/
structure BankerState where
  /-- `accounts` — the AccountStore (behind `GoAccounts`). -/
  accounts : AccountStore
  /-- `uninitializedAccounts` — the pending-registration set. -/
  uninitializedAccounts : List String
  /-- `spendRate.value` — micro-units; constructor default `MicroUSD(100000)`. -/
  spendRate : Int
  /-- `accountSuffix` — this replica's instance suffix. -/
  accountSuffix : String
  /-- `type` — ROUTER or POST_AUCTION. -/
  type : GoAccountType
  reauthorizeInProgress : Bool
  reauthorizeSkipped : Nat
  spendUpdateInProgress : Bool
  spendUpdateSkipped : Nat
deriving DecidableEq, Repr

/-- Result of one periodic tick: the new state, the request the tick sent
(`none` when the overlap guard skipped), and the recorded events. -/
structure TickResult where
  state : BankerState
  request : Option Request
  events : List String
deriving DecidableEq, Repr

/-- Result of processing one HTTP response: the new state, the follow-up
requests it issued, and the recorded events. -/
structure ResponseResult where
  state : BankerState
  requests : List Request
  events : List String
deriving DecidableEq, Repr

/-- The `accountType` tag string sent on registration. -/
def roleTag : GoAccountType → String
  | .ROUTER => "Router"
  | .POST_AUCTION => "PostAuction"

/-- `LocalBanker::addAccountImpl(key)` (synchronous part): when the key is
already in the store, erase it from the pending set and return; otherwise
insert it into the pending set and post a registration request carrying the
account name and the role tag. -/
def addAccountImpl (st : BankerState) (key : String) :
    BankerState × List Request × List String :=
  if existsAccount st.accounts key then
    ({ st with uninitializedAccounts := eraseSet st.uninitializedAccounts key }, [], [])
  else
    ({ st with uninitializedAccounts := insertSet st.uninitializedAccounts key },
     [Request.registerAccount key (roleTag st.type)],
     ["addAccount.attempts"])

/-- `LocalBanker::addAccount(key)`: qualifies the key with the instance
suffix and delegates to `addAccountImpl`. -/
def addAccount (st : BankerState) (key : String) :
    BankerState × List Request × List String :=
  addAccountImpl st (key ++ ":" ++ st.accountSuffix)

/-- The `onResponse` callback of `addAccountImpl`: on non-200 record the
failure; on 200 merge the body via `addFromJsonString` and erase the key
from the pending set whether or not the merge succeeded. -/
def addAccountOnResponse (st : BankerState) (key : String) (status : Int)
    (body : Option AccountRecord) : BankerState × List String :=
  if status != 200 then
    (st, ["addAccount.failure"])
  else
    let r := addFromJsonString st.accounts body
    ({ st with
        accounts := r.1,
        uninitializedAccounts := eraseSet st.uninitializedAccounts key },
     (if !r.2 then ["addAccount.error"] else []) ++ ["addAccount.success"])

/-- `LocalBanker::replaceAccount(key)` (synchronous part): issue
`GET /accounts/<key>` for the account's canonical state. -/
def replaceAccount (key : String) : List Request × List String :=
  ([Request.fetchAccount ("/accounts/" ++ key)], ["updateOutOfSync.attempts"])

/-- The `initializeAccountsPeriodic` sweep body applied to one pending key. -/
def sweepStep (acc : BankerState × List Request) (key : String) :
    BankerState × List Request :=
  let r := addAccountImpl acc.1 key
  (r.1, acc.2 ++ r.2.1)

/-- The `initializeAccountsPeriodic` lambda of `LocalBanker::init`: swap the
pending set with an empty one, then run `addAccountImpl` on each
previously-pending key. -/
def initializeAccountsSweep (st : BankerState) : BankerState × List Request :=
  st.uninitializedAccounts.foldl sweepStep
    ({ st with uninitializedAccounts := [] }, [])

/-- The `POST /spendupdate` request body: the serialized store snapshot. -/
def spendUpdateRequest (st : BankerState) : Request :=
  Request.spendUpdatePost st.accounts

/-- `LocalBanker::spendUpdate()` (timer tick, synchronous part): the overlap
guard, then the post of the store snapshot. -/
def spendUpdate (st : BankerState) : TickResult :=
  if st.spendUpdateInProgress then
    if st.spendUpdateSkipped + 1 > 3 then
      { state := { st with spendUpdateInProgress := true, spendUpdateSkipped := 0 },
        request := some (spendUpdateRequest st),
        events := ["spendUpdate.inProgress", "spendUpdate.forceRetry", "spendUpdate.attempt"] }
    else
      { state := { st with spendUpdateSkipped := st.spendUpdateSkipped + 1 },
        request := none,
        events := ["spendUpdate.inProgress"] }
  else
    { state := { st with spendUpdateInProgress := true, spendUpdateSkipped := 0 },
      request := some (spendUpdateRequest st),
      events := ["spendUpdate.attempt"] }

/-- The response loop of `spendUpdate`'s `onResponse`: for each
`name → status` entry whose status is neither `"no need"` nor `"success"`,
call `replaceAccount` on the name. -/
def spendUpdateProcess : List (String × String) → List Request × List String
  | [] => ([], [])
  | e :: rest =>
      let tail := spendUpdateProcess rest
      if e.2 != "no need" && e.2 != "success" then
        ((replaceAccount e.1).1 ++ tail.1, (replaceAccount e.1).2 ++ tail.2)
      else tail

/-- The `onResponse` callback of `spendUpdate`: clear the in-progress flag;
on non-200 record the failure; on a 200 body that fails to parse record the
parse error and return; otherwise run the entry loop. -/
def spendUpdateOnResponse (st : BankerState) (status : Int)
    (body : Option (List (String × String))) : ResponseResult :=
  let st1 := { st with spendUpdateInProgress := false }
  if status != 200 then
    { state := st1, requests := [], events := ["spendUpdate.failure"] }
  else
    match body with
    | none =>
        { state := st1, requests := [], events := ["spendUpdate.jsonParsingError"] }
    | some entries =>
        let r := spendUpdateProcess entries
        { state := st1, requests := r.1, events := r.2 ++ ["spendUpdate.success"] }

/-- The `POST /reauthorize/1` request body: the list of account names. -/
def reauthorizeRequest (st : BankerState) : Request :=
  Request.reauthorizePost (st.accounts.map (fun p => p.1))

/-- `LocalBanker::reauthorize()` (timer tick, synchronous part): the overlap
guard, then the post of the account-name list. -/
def reauthorize (st : BankerState) : TickResult :=
  if st.reauthorizeInProgress then
    if st.reauthorizeSkipped + 1 > 3 then
      { state := { st with reauthorizeInProgress := true, reauthorizeSkipped := 0 },
        request := some (reauthorizeRequest st),
        events := ["reauthorize.inProgress", "reauthorize.forceRetry", "reauthorize.attempt"] }
    else
      { state := { st with reauthorizeSkipped := st.reauthorizeSkipped + 1 },
        request := none,
        events := ["reauthorize.inProgress"] }
  else
    { state := { st with reauthorizeInProgress := true, reauthorizeSkipped := 0 },
      request := some (reauthorizeRequest st),
      events := ["reauthorize.attempt"] }

/-- The request `LocalBanker::setRate(key)` posts:
`{"USD/1M": spendRate}` to `/accounts/<key>/rate`. -/
def setRateRequest (spendRate : Int) (key : String) : Request :=
  Request.ratePost ("/accounts/" ++ key ++ "/rate") "USD/1M" spendRate

/-- The key expression of the debug balance read inside `reauthorize`'s
response loop: `key.toString() + ":" + accountSuffix`. -/
def debugBalanceKey (accountSuffix name : String) : String :=
  name ++ ":" ++ accountSuffix

/-- The response loop of `reauthorize`'s `onResponse`: for each
`{name, balance, rate}` record, `accumulateBalance` on the name as received
(no suffix applied), then `setRate` when the received rate exceeds the
configured spend rate. -/
def reauthorizeApply (spendRate : Int) :
    List AccountRecord → AccountStore → AccountStore × List Request
  | [], store => (store, [])
  | r :: rest, store =>
      let store1 := (accumulateBalance store r.name r.balance).1
      let tail := reauthorizeApply spendRate rest store1
      if r.rate > spendRate then (tail.1, setRateRequest spendRate r.name :: tail.2)
      else tail

/-- The `onResponse` callback of `reauthorize`: clear the in-progress flag;
on non-200 record the failure; on a 200 body that fails to parse record the
parse error (the code spells the counter `reautorize.jsonParsingError`) and
return; otherwise run the record loop. -/
def reauthorizeOnResponse (st : BankerState) (status : Int)
    (body : Option (List AccountRecord)) : ResponseResult :=
  let st1 := { st with reauthorizeInProgress := false }
  if status != 200 then
    { state := st1, requests := [], events := ["reauthorize.failure"] }
  else
    match body with
    | none =>
        { state := st1, requests := [], events := ["reautorize.jsonParsingError"] }
    | some records =>
        let r := reauthorizeApply st.spendRate records st.accounts
        { state := { st1 with accounts := r.1 }, requests := r.2,
          events := ["reauthorize.success"] }

/-- Whether a request is a registration request for the given account name
(any role tag). -/
def isRegisterFor (fk : String) : Request → Bool
  | .registerAccount n _ => n == fk
  | _ => false

/-- A banker state with the given store, pending set, suffix, role and
overlap-guard fields; spend rate at the constructor default `100000`. -/
def mkBanker (store : AccountStore) (pending : List String) (suffix : String)
    (ty : GoAccountType) (suIP : Bool) (suSk : Nat) (raIP : Bool) (raSk : Nat) :
    BankerState :=
  { accounts := store
    uninitializedAccounts := pending
    spendRate := 100000
    accountSuffix := suffix
    type := ty
    reauthorizeInProgress := raIP
    reauthorizeSkipped := raSk
    spendUpdateInProgress := suIP
    spendUpdateSkipped := suSk }

/-- Balance lookup in the modelled store. -/
def lookupBalance (store : AccountStore) (key : String) : Option Int :=
  (store.find? (fun p => p.1 == key)).map (fun p => p.2.balance)

/-! Concrete states used by the witnesses and counterexamples. -/

/-- A router-role banker holding one suffixed replica of `camp1:strategy1`. -/
def sampleRouterBanker : BankerState :=
  mkBanker [("camp1:strategy1:router", { balance := 5000000, rate := 0 })] [] "router"
    .ROUTER true 0 true 0

/-- A post-auction banker holding two suffixed replicas, with a spend-update
request in flight. -/
def samplePalBanker : BankerState :=
  mkBanker
    [("camp1:strategy1:router", { balance := 5000000, rate := 0 }),
     ("camp2:strategy2:router", { balance := 3000000, rate := 0 })]
    [] "router" .POST_AUCTION true 0 false 0

/-- An empty banker with both protocols' requests in flight and no skips yet. -/
def sampleInFlightBanker : BankerState :=
  mkBanker [] [] "router" .ROUTER true 0 true 0

/-- An empty idle router-role banker. -/
def sampleIdleRouterBanker : BankerState :=
  mkBanker [] [] "router" .ROUTER false 0 false 0

/-- An empty idle post-auction banker. -/
def sampleIdlePalBanker : BankerState :=
  mkBanker [] [] "pal" .POST_AUCTION false 0 false 0

/-- A banker with one registered account and one pending registration. -/
def sampleMixedBanker : BankerState :=
  mkBanker [("a:router", { balance := 1000, rate := 0 })] ["b:router"] "router"
    .ROUTER true 1 true 2

/-! Helper lemmas about the embedded operations. -/

theorem spendUpdateProcess_requests (entries : List (String × String)) :
    (spendUpdateProcess entries).1 =
      (entries.filter (fun e => e.2 != "no need" && e.2 != "success")).map
        (fun e => Request.fetchAccount ("/accounts/" ++ e.1)) := by
  induction entries with
  | nil => rfl
  | cons e rest ih =>
      by_cases h : (e.2 != "no need" && e.2 != "success") = true
      · simp [spendUpdateProcess, replaceAccount, h, ih, List.filter_cons]
      · simp only [Bool.not_eq_true] at h
        simp [spendUpdateProcess, h, ih, List.filter_cons]

theorem reauthorizeApply_requests (spendRate : Int) (records : List AccountRecord) :
    ∀ store : AccountStore,
      (reauthorizeApply spendRate records store).2 =
        (records.filter (fun r => decide (r.rate > spendRate))).map
          (fun r => setRateRequest spendRate r.name) := by
  induction records with
  | nil => intro store; rfl
  | cons r rest ih =>
      intro store
      by_cases h : r.rate > spendRate
      · simp [reauthorizeApply, h, ih, List.filter_cons]
      · simp [reauthorizeApply, h, ih, List.filter_cons]

theorem reauthorizeApply_store (spendRate : Int) (records : List AccountRecord) :
    ∀ store : AccountStore,
      (reauthorizeApply spendRate records store).1 =
        records.foldl (fun s r => (accumulateBalance s r.name r.balance).1) store := by
  induction records with
  | nil => intro store; rfl
  | cons r rest ih =>
      intro store
      by_cases h : r.rate > spendRate
      · simp [reauthorizeApply, h, ih]
      · simp [reauthorizeApply, h, ih]

theorem sweep_register_bound (pending : List String) :
    ∀ (s : BankerState) (acc : List Request) (fk : String),
      ((pending.foldl sweepStep (s, acc)).2.filter (isRegisterFor fk)).length ≤
        (acc.filter (isRegisterFor fk)).length + pending.count fk := by
  induction pending with
  | nil => intro s acc fk; simp
  | cons k rest ih =>
      intro s acc fk
      have hfold : (k :: rest).foldl sweepStep (s, acc)
          = rest.foldl sweepStep (sweepStep (s, acc) k) := rfl
      rw [hfold]
      by_cases hex : existsAccount s.accounts k = true
      · have hstep : sweepStep (s, acc) k
            = ({ s with uninitializedAccounts := eraseSet s.uninitializedAccounts k }, acc) := by
          simp [sweepStep, addAccountImpl, hex]
        rw [hstep]
        calc ((rest.foldl sweepStep
                ({ s with uninitializedAccounts := eraseSet s.uninitializedAccounts k }, acc)).2.filter
                  (isRegisterFor fk)).length
            ≤ (acc.filter (isRegisterFor fk)).length + rest.count fk := ih _ _ _
          _ ≤ (acc.filter (isRegisterFor fk)).length + (k :: rest).count fk := by
              simp [List.count_cons]
      · have hex' : existsAccount s.accounts k = false := by
          simpa using hex
        have hstep : sweepStep (s, acc) k
            = ({ s with uninitializedAccounts := insertSet s.uninitializedAccounts k },
               acc ++ [Request.registerAccount k (roleTag s.type)]) := by
          simp [sweepStep, addAccountImpl, hex']
        rw [hstep]
        have hb := ih { s with uninitializedAccounts := insertSet s.uninitializedAccounts k }
          (acc ++ [Request.registerAccount k (roleTag s.type)]) fk
        have hlen : ((acc ++ [Request.registerAccount k (roleTag s.type)]).filter
            (isRegisterFor fk)).length
            = (acc.filter (isRegisterFor fk)).length + (if k == fk then 1 else 0) := by
          by_cases hk : (k == fk) = true
          · simp [List.filter_append, isRegisterFor, hk]
          · have : (k == fk) = false := by simpa using hk
            simp [List.filter_append, isRegisterFor, this]
        rw [hlen] at hb
        have hcnt : (k :: rest).count fk = rest.count fk + (if k == fk then 1 else 0) := by
          simp [List.count_cons]
        omega

theorem insertSet_count_self (s : List String) (k : String) (h : s.count k ≤ 1) :
    (insertSet s k).count k = 1 := by
  by_cases hc : s.contains k = true
  · have hmem : k ∈ s := by simpa using hc
    have hpos : 0 < s.count k := List.count_pos_iff.mpr hmem
    have he : insertSet s k = s := by simp [insertSet, hmem]
    rw [he]
    omega
  · have hmem : k ∉ s := by simpa using hc
    have hz : s.count k = 0 := List.count_eq_zero.mpr hmem
    have he : insertSet s k = s ++ [k] := by simp [insertSet, hmem]
    rw [he]
    simp [List.count_append, hz]

theorem eraseSet_count_self (s : List String) (k : String) :
    (eraseSet s k).count k = 0 := by
  refine List.count_eq_zero.mpr ?_
  intro hmem
  have hp := List.of_mem_filter hmem
  simp at hp

/-! The claims. -/

/-- Claim C1: for each periodic protocol (reauthorize, spend-update), if
timer ticks occur 4 times while the first request is still outstanding
(the in-progress flag stays set), the first three such ticks issue no
request, the 4th tick issues a new request (forced retry, recording the
force-retry event) and resets the skip counter to zero; in general a tick
with the in-progress flag set increments the skip counter and proceeds
exactly when that counter exceeds 3. -/
theorem overlapGuard_forced_retry_after_three_skips (st : BankerState)
    (hsu1 : st.spendUpdateInProgress = true) (hsu2 : st.spendUpdateSkipped = 0)
    (hra1 : st.reauthorizeInProgress = true) (hra2 : st.reauthorizeSkipped = 0) :
    ((spendUpdate st).request = none ∧
     (spendUpdate (spendUpdate st).state).request = none ∧
     (spendUpdate (spendUpdate (spendUpdate st).state).state).request = none ∧
     (spendUpdate (spendUpdate (spendUpdate (spendUpdate st).state).state).state).request
        = some (spendUpdateRequest (spendUpdate (spendUpdate (spendUpdate st).state).state).state) ∧
     "spendUpdate.forceRetry" ∈
        (spendUpdate (spendUpdate (spendUpdate (spendUpdate st).state).state).state).events ∧
     (spendUpdate (spendUpdate (spendUpdate (spendUpdate st).state).state).state).state.spendUpdateSkipped = 0) ∧
    ((reauthorize st).request = none ∧
     (reauthorize (reauthorize st).state).request = none ∧
     (reauthorize (reauthorize (reauthorize st).state).state).request = none ∧
     (reauthorize (reauthorize (reauthorize (reauthorize st).state).state).state).request
        = some (reauthorizeRequest (reauthorize (reauthorize (reauthorize st).state).state).state) ∧
     "reauthorize.forceRetry" ∈
        (reauthorize (reauthorize (reauthorize (reauthorize st).state).state).state).events ∧
     (reauthorize (reauthorize (reauthorize (reauthorize st).state).state).state).state.reauthorizeSkipped = 0) ∧
    (∀ s : BankerState, s.spendUpdateInProgress = true →
      ((spendUpdate s).request.isSome = true ↔ s.spendUpdateSkipped + 1 > 3) ∧
      ((spendUpdate s).request = none →
        (spendUpdate s).state.spendUpdateSkipped = s.spendUpdateSkipped + 1)) ∧
    (∀ s : BankerState, s.reauthorizeInProgress = true →
      ((reauthorize s).request.isSome = true ↔ s.reauthorizeSkipped + 1 > 3) ∧
      ((reauthorize s).request = none →
        (reauthorize s).state.reauthorizeSkipped = s.reauthorizeSkipped + 1)) := by
  refine ⟨?_, ?_, ?_, ?_⟩
  · simp [spendUpdate, hsu1, hsu2]
  · simp [reauthorize, hra1, hra2]
  · intro s hs
    by_cases h : s.spendUpdateSkipped + 1 > 3
    · simp [spendUpdate, hs, h]
    · simp [spendUpdate, hs, h]
  · intro s hs
    by_cases h : s.reauthorizeSkipped + 1 > 3
    · simp [reauthorize, hs, h]
    · simp [reauthorize, hs, h]

/-- Witness for C1: on a concrete in-flight banker, the 4th tick of the
spend-update protocol issues the forced-retry request. -/
theorem overlapGuard_forced_retry_witness :
    (spendUpdate (spendUpdate (spendUpdate (spendUpdate sampleInFlightBanker).state).state).state).request
      = some (spendUpdateRequest
          (spendUpdate (spendUpdate (spendUpdate sampleInFlightBanker).state).state).state) :=
  (overlapGuard_forced_retry_after_three_skips sampleInFlightBanker rfl rfl rfl rfl).1.2.2.2.1

/-- Counterexample for C2: with the replica `"camp1:strategy1:router"` held
under the instance suffix `"router"`, a successful reauthorize response
record named `"camp1:strategy1"` with balance `7000000` does NOT apply the
balance replacement to the suffixed local replica key (its balance stays
`5000000`); the write lands on the unsuffixed key instead. -/
theorem reauthorize_suffix_not_applied_cex :
    lookupBalance
        ((reauthorizeOnResponse sampleRouterBanker 200
            (some [{ name := "camp1:strategy1", balance := 7000000, rate := 0 }])).state.accounts)
        ("camp1:strategy1" ++ ":" ++ "router") ≠ some 7000000 ∧
    lookupBalance
        ((reauthorizeOnResponse sampleRouterBanker 200
            (some [{ name := "camp1:strategy1", balance := 7000000, rate := 0 }])).state.accounts)
        "camp1:strategy1" = some 7000000 := by
  decide

/-- Claim C2 as amended: for every record of a successful reauthorize
response, the handler calls `accumulateBalance` with the received name
verbatim — the instance's account suffix is not applied — so the resulting
store is the left-to-right fold of `accumulateBalance` over the received
names; the suffix is applied only in the debug-mode balance read
(`debugBalanceKey`). -/
theorem reauthorize_accumulates_on_received_name (st : BankerState)
    (records : List AccountRecord) :
    (reauthorizeOnResponse st 200 (some records)).state.accounts =
      records.foldl (fun s r => (accumulateBalance s r.name r.balance).1) st.accounts ∧
    (∀ suffix name : String, debugBalanceKey suffix name = name ++ ":" ++ suffix) := by
  constructor
  · simp [reauthorizeOnResponse, reauthorizeApply_store]
  · intro suffix name
    rfl

/-- Counterexample for C3: an entry whose status string is `"no-op"` — one
of the two statuses the claim exempts — does trigger a replace, so the
claimed biconditional fails. -/
theorem spendUpdate_noop_status_cex :
    ¬ ((spendUpdateOnResponse sampleIdlePalBanker 200 (some [("a", "no-op")])).requests = [] ↔
        ("no-op" = "no-op" ∨ "no-op" = "success")) := by
  decide

/-- Claim C3 as amended: in spend-update response processing, an account
entry triggers the single-account replace protocol exactly when its status
string is neither `"no need"` nor `"success"`: the replace-fetch requests
are exactly those of the entries whose status differs from both. -/
theorem spendUpdate_replace_iff_not_noneed_success (st : BankerState)
    (entries : List (String × String)) :
    (spendUpdateOnResponse st 200 (some entries)).requests =
      (entries.filter (fun e => e.2 != "no need" && e.2 != "success")).map
        (fun e => Request.fetchAccount ("/accounts/" ++ e.1)) := by
  simp [spendUpdateOnResponse, spendUpdateProcess_requests]

/-- Counterexample for C4: the spend-update response
`{"camp1:strategy1:router": "desync"}` does not address its replace-fetch
to the suffix-stripped account `"camp1:strategy1"`. -/
theorem spendUpdate_desync_unstripped_cex :
    (spendUpdateOnResponse samplePalBanker 200
        (some [("camp1:strategy1:router", "desync")])).requests ≠
      [Request.fetchAccount ("/accounts/" ++ "camp1:strategy1")] := by
  decide

/-- Claim C4 as amended: a spend-update response containing exactly the
entry mapping `"camp1:strategy1:router"` to `"desync"` triggers exactly one
replace-fetch, addressed to `"camp1:strategy1:router"` exactly as received
(the instance suffix is not stripped), and mutates no account in the
store. -/
theorem spendUpdate_desync_single_replace :
    (spendUpdateOnResponse samplePalBanker 200
        (some [("camp1:strategy1:router", "desync")])).requests =
      [Request.fetchAccount ("/accounts/" ++ "camp1:strategy1:router")] ∧
    (spendUpdateOnResponse samplePalBanker 200
        (some [("camp1:strategy1:router", "desync")])).state.accounts =
      samplePalBanker.accounts := by
  decide

/-- Claim C5: calling `addAccount(key)` twice before any registration
response arrives leaves exactly one pending-registration entry for the
fully-qualified key and at most one registration request for it per sweep;
`addAccountImpl` on an existing key erases it from the pending set and
sends nothing, and on a missing key inserts it and sends one registration
request carrying the account name and the role tag. -/
theorem addAccount_idempotent_pending (st : BankerState) (key : String)
    (hex : existsAccount st.accounts (key ++ ":" ++ st.accountSuffix) = false)
    (hcnt : st.uninitializedAccounts.count (key ++ ":" ++ st.accountSuffix) ≤ 1) :
    ((addAccount (addAccount st key).1 key).1.uninitializedAccounts.count
        (key ++ ":" ++ st.accountSuffix) = 1) ∧
    (((initializeAccountsSweep (addAccount (addAccount st key).1 key).1).2.filter
        (isRegisterFor (key ++ ":" ++ st.accountSuffix))).length ≤ 1) ∧
    ((addAccount st key).2.1
        = [Request.registerAccount (key ++ ":" ++ st.accountSuffix) (roleTag st.type)]) ∧
    (∀ s : BankerState, ∀ k : String, existsAccount s.accounts k = true →
       (addAccountImpl s k).1.uninitializedAccounts = eraseSet s.uninitializedAccounts k ∧
       (addAccountImpl s k).2.1 = []) ∧
    (∀ s : BankerState, ∀ k : String, existsAccount s.accounts k = false →
       (addAccountImpl s k).1.uninitializedAccounts = insertSet s.uninitializedAccounts k ∧
       (addAccountImpl s k).2.1 = [Request.registerAccount k (roleTag s.type)]) := by
  have h1 : addAccount st key
      = ({ st with uninitializedAccounts :=
             insertSet st.uninitializedAccounts (key ++ ":" ++ st.accountSuffix) },
         [Request.registerAccount (key ++ ":" ++ st.accountSuffix) (roleTag st.type)],
         ["addAccount.attempts"]) := by
    simp [addAccount, addAccountImpl, hex]
  have h2 : addAccount (addAccount st key).1 key
      = ({ st with uninitializedAccounts := (insertSet (insertSet st.uninitializedAccounts (key ++ ":" ++ st.accountSuffix)) (key ++ ":" ++ st.accountSuffix)) },
         [Request.registerAccount (key ++ ":" ++ st.accountSuffix) (roleTag st.type)],
         ["addAccount.attempts"]) := by
    rw [h1]
    simp [addAccount, addAccountImpl, hex]
  have hcount2 : (insertSet (insertSet st.uninitializedAccounts (key ++ ":" ++ st.accountSuffix))
      (key ++ ":" ++ st.accountSuffix)).count (key ++ ":" ++ st.accountSuffix) = 1 := by
    have hcount1 : (insertSet st.uninitializedAccounts (key ++ ":" ++ st.accountSuffix)).count
        (key ++ ":" ++ st.accountSuffix) = 1 :=
      insertSet_count_self _ _ hcnt
    exact insertSet_count_self _ _ (by omega)
  refine ⟨?_, ?_, ?_, ?_, ?_⟩
  · rw [h2]
    exact hcount2
  · rw [h2]
    have hb := sweep_register_bound
      (insertSet (insertSet st.uninitializedAccounts (key ++ ":" ++ st.accountSuffix))
        (key ++ ":" ++ st.accountSuffix))
      { st with uninitializedAccounts := ([] : List String) } []
      (key ++ ":" ++ st.accountSuffix)
    simp only [initializeAccountsSweep]
    simp only [List.filter_nil, List.length_nil, Nat.zero_add] at hb
    calc _ ≤ _ := hb
      _ ≤ 1 := by rw [hcount2]
  · rw [h1]
  · intro s k hk
    constructor <;> simp [addAccountImpl, hk]
  · intro s k hk
    constructor <;> simp [addAccountImpl, hk]

/-- Witness for C5: on an empty banker, two `addAccount "camp1:strategy1"`
calls leave one pending entry for the suffixed key. -/
theorem addAccount_idempotent_pending_witness :
    (addAccount (addAccount sampleIdleRouterBanker "camp1:strategy1").1
        "camp1:strategy1").1.uninitializedAccounts.count
      ("camp1:strategy1" ++ ":" ++ sampleIdleRouterBanker.accountSuffix) = 1 :=
  (addAccount_idempotent_pending sampleIdleRouterBanker "camp1:strategy1"
    (by decide) (by decide)).1

/-- Claim C6: during reauthorize response processing a rate-update call is
issued for an account exactly when the returned rate exceeds the configured
spend rate: the issued requests are exactly the `{"USD/1M": spendRate}`
posts to `/accounts/<name>/rate` for the records with `rate > spendRate`. -/
theorem reauthorize_setRate_iff_rate_exceeds (st : BankerState)
    (records : List AccountRecord) :
    (reauthorizeOnResponse st 200 (some records)).requests =
      (records.filter (fun r => decide (r.rate > st.spendRate))).map
        (fun r => Request.ratePost ("/accounts/" ++ r.name ++ "/rate") "USD/1M" st.spendRate) := by
  simp [reauthorizeOnResponse, reauthorizeApply_requests, setRateRequest]

/-- Claim C7: for both protocols, a non-200 response mutates neither the
account store nor the pending-registration set, issues no follow-up
request, and records only the protocol's failure event. -/
theorem transport_failure_no_mutation (st : BankerState) (status : Int)
    (bodySU : Option (List (String × String))) (bodyRA : Option (List AccountRecord))
    (h : status ≠ 200) :
    ((spendUpdateOnResponse st status bodySU).state.accounts = st.accounts ∧
     (spendUpdateOnResponse st status bodySU).state.uninitializedAccounts
        = st.uninitializedAccounts ∧
     (spendUpdateOnResponse st status bodySU).requests = [] ∧
     (spendUpdateOnResponse st status bodySU).events = ["spendUpdate.failure"]) ∧
    ((reauthorizeOnResponse st status bodyRA).state.accounts = st.accounts ∧
     (reauthorizeOnResponse st status bodyRA).state.uninitializedAccounts
        = st.uninitializedAccounts ∧
     (reauthorizeOnResponse st status bodyRA).requests = [] ∧
     (reauthorizeOnResponse st status bodyRA).events = ["reauthorize.failure"]) := by
  constructor
  · simp [spendUpdateOnResponse, h]
  · simp [reauthorizeOnResponse, h]

/-- Witness for C7: a concrete 500 spend-update response leaves the
concrete banker's store unchanged. -/
theorem transport_failure_no_mutation_witness :
    (spendUpdateOnResponse sampleMixedBanker 500 none).state.accounts
      = sampleMixedBanker.accounts :=
  (transport_failure_no_mutation sampleMixedBanker 500 none none (by decide)).1.1

/-- Claim C8: for both protocols, a 200 response whose body fails to parse
records a parse-failure event distinct from the transport-failure event,
issues no follow-up request, and mutates neither the account store nor the
pending-registration set. -/
theorem parse_failure_distinct_no_side_effect (st : BankerState) :
    ((spendUpdateOnResponse st 200 none).state.accounts = st.accounts ∧
     (spendUpdateOnResponse st 200 none).state.uninitializedAccounts
        = st.uninitializedAccounts ∧
     (spendUpdateOnResponse st 200 none).requests = [] ∧
     (spendUpdateOnResponse st 200 none).events = ["spendUpdate.jsonParsingError"] ∧
     "spendUpdate.jsonParsingError" ≠ "spendUpdate.failure") ∧
    ((reauthorizeOnResponse st 200 none).state.accounts = st.accounts ∧
     (reauthorizeOnResponse st 200 none).state.uninitializedAccounts
        = st.uninitializedAccounts ∧
     (reauthorizeOnResponse st 200 none).requests = [] ∧
     (reauthorizeOnResponse st 200 none).events = ["reautorize.jsonParsingError"] ∧
     "reautorize.jsonParsingError" ≠ "reauthorize.failure") := by
  constructor
  · refine ⟨?_, ?_, ?_, ?_, ?_⟩ <;> simp [spendUpdateOnResponse]
  · refine ⟨?_, ?_, ?_, ?_, ?_⟩ <;> simp [reauthorizeOnResponse]

/-- Claim C9: a 200 registration response erases the key from the
pending-registration set for any body, including one `addFromJsonString`
rejects (the merge failure is recorded as `addAccount.error`, yet the key
is gone and the next sweep issues no registration request for it); only a
non-200 response leaves the pending set — and the whole state — unchanged
for retry. -/
theorem register_response_erases_pending (st : BankerState) (key : String)
    (status : Int) (body : Option AccountRecord) :
    (status = 200 →
       (addAccountOnResponse st key status body).1.uninitializedAccounts.count key = 0 ∧
       ((initializeAccountsSweep (addAccountOnResponse st key status body).1).2.filter
           (isRegisterFor key)).length = 0) ∧
    ((addAccountOnResponse st key 200 none).2 = ["addAccount.error", "addAccount.success"]) ∧
    (status ≠ 200 →
       (addAccountOnResponse st key status body).1 = st ∧
       (addAccountOnResponse st key status body).2 = ["addAccount.failure"]) := by
  refine ⟨?_, ?_, ?_⟩
  · intro h200
    subst h200
    have hpend : (addAccountOnResponse st key 200 body).1.uninitializedAccounts
        = eraseSet st.uninitializedAccounts key := by
      simp [addAccountOnResponse]
    have hz : (addAccountOnResponse st key 200 body).1.uninitializedAccounts.count key = 0 := by
      rw [hpend]; exact eraseSet_count_self _ _
    refine ⟨hz, ?_⟩
    have hb := sweep_register_bound
      ((addAccountOnResponse st key 200 body).1.uninitializedAccounts)
      { (addAccountOnResponse st key 200 body).1 with uninitializedAccounts := ([] : List String) }
      [] key
    simp only [initializeAccountsSweep]
    simp only [List.filter_nil, List.length_nil, Nat.zero_add, hz] at hb
    omega
  · simp [addAccountOnResponse, addFromJsonString]
  · intro h
    constructor <;> simp [addAccountOnResponse, h]

/-- Witness for C9: on a concrete banker, a 200 response with an unparsable
body still erases the key from the pending set. -/
theorem register_response_erases_pending_witness :
    (addAccountOnResponse sampleMixedBanker "b:router" 200 none).1.uninitializedAccounts.count
      "b:router" = 0 :=
  ((register_response_erases_pending sampleMixedBanker "b:router" 200 none).1 rfl).1

/-- Claim C10: the in-progress flag carries no request identity.  Concrete
trace, for each protocol: tick 1 issues a request, ticks 2-4 skip, tick 5
forces a retry (two requests now outstanding); the first response to
arrive clears the flag although the other request is still outstanding,
so the very next tick issues yet another request with no skip recorded:
single-flight is not restored until every outstanding response arrives. -/
theorem inProgress_no_request_identity :
    ((spendUpdate sampleIdlePalBanker).request.isSome = true ∧
     (spendUpdate (spendUpdate sampleIdlePalBanker).state).request = none ∧
     (spendUpdate (spendUpdate (spendUpdate sampleIdlePalBanker).state).state).request = none ∧
     (spendUpdate (spendUpdate (spendUpdate (spendUpdate sampleIdlePalBanker).state).state).state).request = none ∧
     (spendUpdate (spendUpdate (spendUpdate (spendUpdate (spendUpdate sampleIdlePalBanker).state).state).state).state).request.isSome = true ∧
     "spendUpdate.forceRetry" ∈ (spendUpdate (spendUpdate (spendUpdate (spendUpdate (spendUpdate sampleIdlePalBanker).state).state).state).state).events ∧
     (spendUpdateOnResponse (spendUpdate (spendUpdate (spendUpdate (spendUpdate (spendUpdate sampleIdlePalBanker).state).state).state).state).state 200 (some [])).state.spendUpdateInProgress = false ∧
     (spendUpdate (spendUpdateOnResponse (spendUpdate (spendUpdate (spendUpdate (spendUpdate (spendUpdate sampleIdlePalBanker).state).state).state).state).state 200 (some [])).state).request.isSome = true ∧
     (spendUpdate (spendUpdateOnResponse (spendUpdate (spendUpdate (spendUpdate (spendUpdate (spendUpdate sampleIdlePalBanker).state).state).state).state).state 200 (some [])).state).events = ["spendUpdate.attempt"]) ∧
    ((reauthorize sampleIdleRouterBanker).request.isSome = true ∧
     (reauthorize (reauthorize sampleIdleRouterBanker).state).request = none ∧
     (reauthorize (reauthorize (reauthorize sampleIdleRouterBanker).state).state).request = none ∧
     (reauthorize (reauthorize (reauthorize (reauthorize sampleIdleRouterBanker).state).state).state).request = none ∧
     (reauthorize (reauthorize (reauthorize (reauthorize (reauthorize sampleIdleRouterBanker).state).state).state).state).request.isSome = true ∧
     "reauthorize.forceRetry" ∈ (reauthorize (reauthorize (reauthorize (reauthorize (reauthorize sampleIdleRouterBanker).state).state).state).state).events ∧
     (reauthorizeOnResponse (reauthorize (reauthorize (reauthorize (reauthorize (reauthorize sampleIdleRouterBanker).state).state).state).state).state 200 (some [])).state.reauthorizeInProgress = false ∧
     (reauthorize (reauthorizeOnResponse (reauthorize (reauthorize (reauthorize (reauthorize (reauthorize sampleIdleRouterBanker).state).state).state).state).state 200 (some [])).state).request.isSome = true ∧
     (reauthorize (reauthorizeOnResponse (reauthorize (reauthorize (reauthorize (reauthorize (reauthorize sampleIdleRouterBanker).state).state).state).state).state 200 (some [])).state).events = ["reauthorize.attempt"]) := by
  decide

end LocalBanker
